import Mathlib

/-!
# Message-queue lifecycle of the docker driver (`docker-mq.c`)

A shallow embedding of `src/runner/driver/docker-driver/docker-mq.c`:
`__docker_mq_init`, `docker_mq_init`, `docker_mq_get` and `docker_mq_free`,
run against an explicit model of the libc / System V IPC calls they make
(`malloc`, `free`, `snprintf`, `open`, `close`, `ftok`, `msgget`, `msgctl`,
`msgrcv`, `memcpy`).

Conventions.
* C strings are `List Char` (one `Char` per byte, no terminating NUL).
* C `int` values that are never used in arithmetic are `Int`.
* `assert` is live (no `NDEBUG`): a failed assertion aborts before any effect.
* `pr_info` only logs and is left out.
* Every libc / kernel call appends a `Call` event to `World.trace`, so
  "this call was (not) made" is a statement about the trace.
* The kernel may refuse a call on a live queue: `msgget` and `msgrcv` check the
  queue's mode against the caller (`EACCES`), `msgctl(IPC_RMID)` asks for the
  owner, the creator or `CAP_SYS_ADMIN` (`EPERM`), and a wait in `msgrcv` can be
  interrupted by a signal (`EINTR`).
-/

namespace DockerMq

/-! ## Constants -/

/-- Linux `errno` value `ENOMEM`. -/
def ENOMEM : Int := 12
/-- Linux `errno` value `EFAULT`. -/
def EFAULT : Int := 14
/-- Linux `errno` value `EINVAL`. -/
def EINVAL : Int := 22
/-- Linux `errno` value `ENOKEY`. -/
def ENOKEY : Int := 126
/-- Flag `IPC_CREAT` of `<sys/ipc.h>` (octal 01000). -/
def IPC_CREAT : Nat := 512
/-- Flag `IPC_EXCL` of `<sys/ipc.h>` (octal 02000). -/
def IPC_EXCL : Nat := 1024
/-- Key `IPC_PRIVATE` of `<sys/ipc.h>`. -/
def IPC_PRIVATE : Int := 0

/-- The macros and sizes that `docker-mq.c` takes from headers that are not part
of the source tree at hand (`driver/docker-driver.h`, `trace_replay.h`). They are
parameters of the whole development. -/
structure Config where
  /-- Size in bytes of the path buffer. -/
  BASE_KEY_PATHNAME_LEN : Nat
  /-- Suffix string placed between the cgroup id and the pid. -/
  MSGQ_KEY_PATHNAME : List Char
  /-- Project byte handed to `ftok`. -/
  PROJECT_ID : Nat
  /-- Permission bits or-ed into the `msgget` flags. -/
  PROJECT_PERM : Nat
  /-- Bit of the `flags` argument of `docker_mq_free` that asks for removal. -/
  DOCKER_IPC_FREE : Int
  /-- Value of `sizeof(struct realtime_log)`. -/
  REALTIME_LOG_SIZE : Nat

/-! ## Data model -/

/-- The fields of `struct docker_info` that `docker-mq.c` reads or writes, and
`others` for all the remaining fields of the structure, which this file never
touches. -/
structure docker_info where
  cgroup_id : List Char
  pid : Int
  mqid : Int
  others : List Int
deriving DecidableEq, Repr

/-- A file known to the filesystem model: its path and the identity `stat` reports. -/
structure File where
  path : List Char
  dev : Nat
  ino : Nat
  mode : Nat
deriving DecidableEq, Repr

/-- The filesystem as far as `open(O_WRONLY | O_CREAT)` and `stat` see it. -/
structure Filesystem where
  files : List File
  /-- Whether a file that does not exist yet may be created at the path
  (the directory exists, is writable, has free inodes, ...). -/
  can_create : List Char → Bool
  /-- Whether the caller may open every existing file for writing whatever its mode. -/
  privileged : Bool
  /-- Device number given to created files. -/
  new_dev : Nat
  /-- Inode number given to the next created file. -/
  next_ino : Nat

/-- A message as the kernel queues it: the type discriminant and the payload bytes. -/
structure Message where
  mtype : Int
  mtext : List Nat
deriving DecidableEq, Repr

/-- A live System V message queue, with what its owner, creator and mode mean
for the calling process. -/
structure MsgQueue where
  key : Int
  id : Nat
  msgs : List Message
  /-- The three permission bits (read 4, write 2) of the queue's mode that apply
  to the caller: the owner bits if the caller is owner or creator, else the
  group bits or the bits for others. -/
  granted : Nat
  /-- Whether the caller's effective user is the owner or the creator. -/
  owned : Bool
deriving DecidableEq, Repr

/-- The message-queue part of the kernel IPC namespace. -/
structure Ipc where
  queues : List MsgQueue
  /-- Identifier given to the next created queue. -/
  next_id : Nat
  /-- System-wide limit on the number of queues (`MSGMNI`). -/
  msgmni : Nat
  /-- Whether the caller has `CAP_IPC_OWNER` (permission checks are bypassed). -/
  cap_ipc_owner : Bool
  /-- Whether the caller has `CAP_SYS_ADMIN` (may remove any queue). -/
  cap_sys_admin : Bool
deriving DecidableEq, Repr

/-- The libc and kernel calls made by `docker-mq.c`, with their arguments. -/
inductive Call where
  | malloc (size : Nat)
  | free
  | open_ (path : List Char)
  | close (fd : Int)
  | ftok (path : List Char) (proj_id : Nat)
  | msgget (key : Int) (msgflg : Nat)
  | msgctl_rmid (msqid : Int)
  | msgrcv (msqid : Int) (msgsz : Nat)
deriving DecidableEq, Repr

/-- Everything outside the session that the code can observe or change. -/
structure World where
  /-- Bytes `malloc` can still hand out. -/
  heap_free : Nat
  fs : Filesystem
  ipc : Ipc
  /-- Whether a signal handler interrupts the caller when it waits in a system call. -/
  signal_pending : Bool
  trace : List Call

/-- The C structure `struct realtime_msg`: `long mtype` followed by the
`struct realtime_log` payload, here its bytes. -/
structure realtime_msg where
  mtype : Int
  log : List Nat
deriving DecidableEq, Repr

/-- How a call of one of the public functions ends. -/
inductive Outcome where
  /-- The function returned this `int`. -/
  | ret (v : Int)
  /-- An `assert` failed; the process is aborted. -/
  | abort
  /-- The function is suspended in `msgrcv` on an empty queue. -/
  | block
deriving DecidableEq, Repr

/-! ## libc and kernel model -/

/-- Model of `malloc(size)`: succeeds when enough heap is left. -/
def malloc (w : World) (size : Nat) : Bool × World :=
  if size ≤ w.heap_free then
    (true, { w with heap_free := w.heap_free - size, trace := w.trace ++ [Call.malloc size] })
  else
    (false, { w with trace := w.trace ++ [Call.malloc size] })

/-- Model of `free(p)` for a block of `size` bytes. -/
def free (w : World) (size : Nat) : World :=
  { w with heap_free := w.heap_free + size, trace := w.trace ++ [Call.free] }

/-- Decimal digits of `n`, most significant first; `fuel` bounds the recursion. -/
def dec_digits : Nat → Nat → List Char
  | 0, _ => []
  | fuel + 1, n =>
    if n < 10 then [Nat.digitChar n]
    else dec_digits fuel (n / 10) ++ [Nat.digitChar (n % 10)]

/-- The number that a string of decimal digits denotes. -/
def dec_val (cs : List Char) : Nat :=
  cs.foldl (fun acc c => acc * 10 + (c.toNat - 48)) 0

/-- What the conversion `%d` prints for an `int`. -/
def fmt_d (n : Int) : List Char :=
  if n < 0 then '-' :: dec_digits (n.natAbs + 1) n.natAbs
  else dec_digits (n.natAbs + 1) n.natAbs

/-- The whole text of the format `"/tmp/%s%s_%d"`, before any truncation. -/
def mq_path_text (cgroup_id suffix : List Char) (pid : Int) : List Char :=
  ['/', 't', 'm', 'p', '/'] ++ cgroup_id ++ suffix ++ ['_'] ++ fmt_d pid

/-- Model of `snprintf(buf, size, "/tmp/%s%s_%d", cgroup_id, suffix, pid)`: the
string left in `buf`, at most `size - 1` bytes of the formatted text. -/
def snprintf (size : Nat) (cgroup_id suffix : List Char) (pid : Int) : List Char :=
  (mq_path_text cgroup_id suffix pid).take (size - 1)

/-- Model of `stat(path)`. -/
def stat (fs : Filesystem) (path : List Char) : Option File :=
  fs.files.find? (fun f => decide (f.path = path))

/-- Model of `open(path, O_WRONLY | O_CREAT, mode)`: an existing file is opened
(if its mode lets the caller write), a missing one is created with `mode` when
the filesystem allows it. Returns the descriptor or `-1`. -/
def open_ (w : World) (path : List Char) (mode : Nat) : Int × World :=
  match stat w.fs path with
  | some f =>
    (if w.fs.privileged || decide (f.mode &&& 128 ≠ 0) then 3 else -1,
     { w with trace := w.trace ++ [Call.open_ path] })
  | none =>
    if w.fs.can_create path then
      (3, { w with
              fs := { w.fs with
                        files := w.fs.files ++
                          [{ path := path, dev := w.fs.new_dev, ino := w.fs.next_ino, mode := mode }],
                        next_ino := w.fs.next_ino + 1 },
              trace := w.trace ++ [Call.open_ path] })
    else
      (-1, { w with trace := w.trace ++ [Call.open_ path] })

/-- Model of `close(fd)`; no effect on the filesystem. -/
def close (w : World) (fd : Int) : World :=
  { w with trace := w.trace ++ [Call.close fd] }

/-- A 32-bit pattern read as a C `int` (`key_t`). -/
def to_int32 (x : Nat) : Int :=
  if x % 4294967296 < 2147483648 then (x % 4294967296 : Nat)
  else ((x % 4294967296 : Nat) : Int) - 4294967296

/-- Model of glibc `ftok(path, proj_id)`: `-1` when `stat` fails, otherwise the
low 16 bits of the inode, the low 8 bits of the device and the low 8 bits of
`proj_id`, packed into a `key_t`. -/
def ftok (w : World) (path : List Char) (proj_id : Nat) : Int × World :=
  match stat w.fs path with
  | none => (-1, { w with trace := w.trace ++ [Call.ftok path proj_id] })
  | some f =>
    (to_int32 (f.ino % 65536 + (f.dev % 256) * 65536 + (proj_id % 256) * 16777216),
     { w with trace := w.trace ++ [Call.ftok path proj_id] })

/-- The queue registered under `key`, if any (`IPC_PRIVATE` never matches). -/
def find_key (ipc : Ipc) (key : Int) : Option MsgQueue :=
  if key = IPC_PRIVATE then none
  else ipc.queues.find? (fun q => decide (q.key = key))

/-- The queue with identifier `msqid`, if any. -/
def find_id (ipc : Ipc) (msqid : Int) : Option MsgQueue :=
  ipc.queues.find? (fun q => decide ((q.id : Int) = msqid))

/-- The kernel's permission check `ipcperms(q, flag)`: the access bits asked for
in `flag` (in any of its three groups) must all be among the bits the queue
grants to the caller, unless the caller has `CAP_IPC_OWNER`. -/
def ipcperms (ipc : Ipc) (q : MsgQueue) (flag : Nat) : Bool :=
  decide ((((flag >>> 6) ||| (flag >>> 3) ||| flag) &&& 7) &&& (7 - q.granted % 8) = 0) ||
    ipc.cap_ipc_owner

/-- Model of `msgget(key, msgflg)`. An existing queue is attached unless both
`IPC_CREAT` and `IPC_EXCL` are set (`EEXIST`) or the permission check on the
mode bits of `msgflg` fails (`EACCES`); a missing one is created, owned by the
caller and with the mode bits of `msgflg`, when `IPC_CREAT` is set (or the key
is `IPC_PRIVATE`) and the limit `MSGMNI` is not reached. Returns the queue
identifier or `-1`. -/
def msgget (w : World) (key : Int) (msgflg : Nat) : Int × World :=
  match find_key w.ipc key with
  | some q =>
    if msgflg &&& IPC_CREAT ≠ 0 ∧ msgflg &&& IPC_EXCL ≠ 0 then
      (-1, { w with trace := w.trace ++ [Call.msgget key msgflg] })
    else if ipcperms w.ipc q msgflg = false then
      (-1, { w with trace := w.trace ++ [Call.msgget key msgflg] })
    else
      ((q.id : Int), { w with trace := w.trace ++ [Call.msgget key msgflg] })
  | none =>
    if msgflg &&& IPC_CREAT = 0 ∧ key ≠ IPC_PRIVATE then
      (-1, { w with trace := w.trace ++ [Call.msgget key msgflg] })
    else if w.ipc.msgmni ≤ w.ipc.queues.length then
      (-1, { w with trace := w.trace ++ [Call.msgget key msgflg] })
    else
      ((w.ipc.next_id : Int),
       { w with
           ipc := { w.ipc with
                      queues := w.ipc.queues ++
                        [{ key := key, id := w.ipc.next_id, msgs := [],
                           granted := (msgflg >>> 6) &&& 7, owned := true }],
                      next_id := w.ipc.next_id + 1 },
           trace := w.trace ++ [Call.msgget key msgflg] })

/-- Whether `msqid` is the identifier of a queue that exists in the kernel. -/
def live (w : World) (msqid : Int) : Bool :=
  w.ipc.queues.any (fun q => decide ((q.id : Int) = msqid))

/-- Model of `msgctl(msqid, IPC_RMID, NULL)`. There must be a queue with that
identifier (`EINVAL` otherwise) and the caller must be its owner or creator or
have `CAP_SYS_ADMIN` (`EPERM` otherwise); then the queue is removed together
with its messages and `0` is returned. A refused call returns `-1` and removes
nothing. -/
def msgctl_rmid (w : World) (msqid : Int) : Int × World :=
  match find_id w.ipc msqid with
  | none => (-1, { w with trace := w.trace ++ [Call.msgctl_rmid msqid] })
  | some q =>
    if q.owned || w.ipc.cap_sys_admin then
      (0, { w with
              ipc := { w.ipc with
                         queues := w.ipc.queues.filter (fun q => decide ((q.id : Int) ≠ msqid)) },
              trace := w.trace ++ [Call.msgctl_rmid msqid] })
    else
      (-1, { w with trace := w.trace ++ [Call.msgctl_rmid msqid] })

/-- Drop the head message of the first queue whose identifier is `msqid`. -/
def pop_head (msqid : Int) : List MsgQueue → List MsgQueue
  | [] => []
  | q :: qs =>
    if (q.id : Int) = msqid then { q with msgs := q.msgs.tail } :: qs
    else q :: pop_head msqid qs

/-- The access asked for by `msgrcv`: read (`S_IRUGO`, octal 0444). -/
def S_IRUGO : Nat := 292

/-- Model of `msgrcv(msqid, &rmsg, msgsz, 0, 0)`, in the order the kernel checks.
There must be a queue with that identifier (`EINVAL`) that the caller may read
(`EACCES`). Type `0` asks for the first message whatever its type; a first
message longer than `msgsz` stays queued and the call fails (`E2BIG`, flags
`0`). On an empty queue the call waits: it does not return (`none`) unless a
signal handler interrupts it (`EINTR`). On success the message is taken off the
queue, its type and bytes are stored into `rmsg` (the bytes of `rmsg` past the
message keep their old content) and its length is returned; every failure
returns `-1` and changes neither `rmsg` nor the queue. -/
def msgrcv (w : World) (msqid : Int) (rmsg : realtime_msg) (msgsz : Nat) :
    Option Int × realtime_msg × World :=
  match find_id w.ipc msqid with
  | none => (some (-1), rmsg, { w with trace := w.trace ++ [Call.msgrcv msqid msgsz] })
  | some q =>
    if ipcperms w.ipc q S_IRUGO = false then
      (some (-1), rmsg, { w with trace := w.trace ++ [Call.msgrcv msqid msgsz] })
    else
      match q.msgs with
      | [] =>
        (if w.signal_pending then some (-1) else none, rmsg,
         { w with trace := w.trace ++ [Call.msgrcv msqid msgsz] })
      | m :: _ =>
        if msgsz < m.mtext.length then
          (some (-1), rmsg, { w with trace := w.trace ++ [Call.msgrcv msqid msgsz] })
        else
          (some (m.mtext.length : Int),
           { mtype := m.mtype, log := m.mtext ++ rmsg.log.drop m.mtext.length },
           { w with
               ipc := { w.ipc with queues := pop_head msqid w.ipc.queues },
               trace := w.trace ++ [Call.msgrcv msqid msgsz] })

/-- Model of `memcpy(dst, src, n)` on byte lists. -/
def memcpy (dst src : List Nat) (n : Nat) : List Nat :=
  src.take n ++ dst.drop n

/-! ## The code of `docker-mq.c` -/

/-- Lines 58-64 of `__docker_mq_init`: format the path into the buffer, make sure
the marker file exists (`(void)close(open(mq_path, O_WRONLY | O_CREAT, 0))`) and
derive the key with `ftok(mq_path, PROJECT_ID)`. Returns the path, the key and
the world after the three calls. -/
def mq_key_steps (cfg : Config) (info : docker_info) (w : World) : List Char × Int × World :=
  let mq_path := snprintf cfg.BASE_KEY_PATHNAME_LEN info.cgroup_id cfg.MSGQ_KEY_PATHNAME info.pid
  let o := open_ w mq_path 0
  let w1 := close o.2 o.1
  let k := ftok w1 mq_path cfg.PROJECT_ID
  (mq_path, k.1, k.2)

/-- The label `exception:` of `__docker_mq_init` (lines 80-88): free the path
buffer if it was allocated, remove the queue if `mqid` is a valid identifier,
return `ret`. -/
def mq_init_exception (cfg : Config) (w : World) (mq_path_allocated : Bool) (mqid ret : Int) :
    Int × World :=
  let w1 := if mq_path_allocated then free w cfg.BASE_KEY_PATHNAME_LEN else w
  let w2 := if 0 ≤ mqid then (msgctl_rmid w1 mqid).2 else w1
  (ret, w2)

/-- The function `__docker_mq_init` (lines 46-89): the queue identifier on
success, a negative value otherwise. The locals start as `mqid = -1`,
`ret = -1`; every `goto exception` passes the current `mq_path`, `mqid` and
`ret` to `mq_init_exception`. -/
def __docker_mq_init (cfg : Config) (info : docker_info) (w : World) : Int × World :=
  let a := malloc w cfg.BASE_KEY_PATHNAME_LEN
  if a.1 = false then
    mq_init_exception cfg a.2 false (-1) (-ENOMEM)
  else
    let ks := mq_key_steps cfg info a.2
    let mq_key := ks.2.1
    if mq_key < 0 then
      mq_init_exception cfg ks.2.2 true (-1) (-ENOKEY)
    else
      let g := msgget ks.2.2 mq_key (IPC_CREAT ||| cfg.PROJECT_PERM)
      let mqid := g.1
      if mqid < 0 then
        mq_init_exception cfg g.2 true mqid (-EINVAL)
      else
        (mqid, free g.2 cfg.BASE_KEY_PATHNAME_LEN)

/-- What a call on a session leaves behind: how it ended, the session and the world. -/
structure Result where
  out : Outcome
  info : docker_info
  world : World

/-- The function `docker_mq_init` (lines 98-120). -/
def docker_mq_init (cfg : Config) (info : docker_info) (w : World) : Result :=
  if info.pid = 0 then
    { out := Outcome.abort, info := info, world := w }
  else
    let r := __docker_mq_init cfg info w
    let mqid := r.1
    if mqid < 0 then
      { out := Outcome.ret mqid, info := info, world := r.2 }
    else
      { out := Outcome.ret 0, info := { info with mqid := mqid }, world := r.2 }

/-- What `docker_mq_get` leaves behind: as `Result`, and the caller's buffer. -/
structure GetResult where
  out : Outcome
  info : docker_info
  buffer : List Nat
  world : World

/-- The function `docker_mq_get` (lines 130-145). `rmsg` is the content of the
uninitialised local `struct realtime_msg rmsg` on entry. -/
def docker_mq_get (cfg : Config) (info : docker_info) (buffer : List Nat) (rmsg : realtime_msg)
    (w : World) : GetResult :=
  if info.mqid = -1 then
    { out := Outcome.abort, info := info, buffer := buffer, world := w }
  else
    let r := msgrcv w info.mqid rmsg cfg.REALTIME_LOG_SIZE
    match r.1 with
    | none =>
      { out := Outcome.block, info := info, buffer := buffer, world := r.2.2 }
    | some n =>
      if n < 0 then
        { out := Outcome.ret (-EFAULT), info := info, buffer := buffer, world := r.2.2 }
      else
        { out := Outcome.ret 0, info := info,
          buffer := memcpy buffer r.2.1.log cfg.REALTIME_LOG_SIZE, world := r.2.2 }

/-- The function `docker_mq_free` (lines 153-166); it returns nothing. -/
def docker_mq_free (cfg : Config) (info : docker_info) (flags : Int) (w : World) :
    docker_info × World :=
  let mqid := info.mqid
  let w1 := if Int.land cfg.DOCKER_IPC_FREE flags ≠ 0 ∧ 0 ≤ mqid then (msgctl_rmid w mqid).2 else w
  ({ info with mqid := -1 }, w1)

/-! ## Sessions sharing one kernel -/

/-- Whether the `malloc` of the path buffer succeeds in `w`. -/
def alloc_ok (cfg : Config) (w : World) : Bool :=
  (malloc w cfg.BASE_KEY_PATHNAME_LEN).1

/-- Path, key and world after the key-derivation steps, run after the `malloc`. -/
def derived (cfg : Config) (info : docker_info) (w : World) : List Char × Int × World :=
  mq_key_steps cfg info (malloc w cfg.BASE_KEY_PATHNAME_LEN).2

/-- Whether key derivation succeeds as the code tests it: `ftok` returns a
non-negative key. For a 7-bit `PROJECT_ID` this is the same as `stat` finding
the marker file (`ftok_nonneg_iff`). -/
def key_ok (cfg : Config) (info : docker_info) (w : World) : Bool :=
  decide (0 ≤ (derived cfg info w).2.1)

/-- The `msgget` call of `__docker_mq_init` on the derived key. -/
def attached (cfg : Config) (info : docker_info) (w : World) : Int × World :=
  msgget (derived cfg info w).2.2 (derived cfg info w).2.1 (IPC_CREAT ||| cfg.PROJECT_PERM)

/-- Whether that `msgget` succeeds: it returns a non-negative identifier. -/
def queue_ok (cfg : Config) (info : docker_info) (w : World) : Bool :=
  decide (0 ≤ (attached cfg info w).1)

/-- Whether the `msgrcv` call of `docker_mq_get` succeeds: it returns, and
returns a non-negative length. -/
def rcv_ok (cfg : Config) (info : docker_info) (rmsg : realtime_msg) (w : World) : Bool :=
  match (msgrcv w info.mqid rmsg cfg.REALTIME_LOG_SIZE).1 with
  | some n => decide (0 ≤ n)
  | none => false

/-! ## Example configuration and states -/

/-- Example values for the absent macros: a 64-byte path buffer, the suffix
`msgq`, the project byte `M`, the permission mask `0666` (no `IPC_EXCL`, so an
existing queue is attached), removal flag `0x1`, a 4-byte record. -/
def cfg0 : Config :=
  { BASE_KEY_PATHNAME_LEN := 64
    MSGQ_KEY_PATHNAME := ['m', 's', 'g', 'q']
    PROJECT_ID := 77
    PROJECT_PERM := 438
    DOCKER_IPC_FREE := 1
    REALTIME_LOG_SIZE := 4 }

/-- An empty kernel with a writable `/tmp`, seen by an unprivileged caller. -/
def w0 : World :=
  { heap_free := 1000
    fs := { files := [], can_create := fun _ => true, privileged := false, new_dev := 1,
            next_ino := 100 }
    ipc := { queues := [], next_id := 0, msgmni := 8, cap_ipc_owner := false,
             cap_sys_admin := false }
    signal_pending := false
    trace := [] }

/-- The world `w0` without any heap left. -/
def w_noheap : World := { w0 with heap_free := 0 }

/-- The world `w0` with a read-only filesystem. -/
def w_rofs : World := { w0 with fs := { w0.fs with can_create := fun _ => false } }

/-- The world `w0` with the queue limit reached. -/
def w_full : World := { w0 with ipc := { w0.ipc with msgmni := 0 } }

/-- A fresh session for cgroup `c1`, pid 42. -/
def s0 : docker_info :=
  { cgroup_id := ['c', '1'], pid := 42, mqid := -1, others := [7] }

/-- The world `w0` with one foreign queue and the queue limit reached. -/
def w_busy : World :=
  { w0 with
      ipc := { w0.ipc with
                 queues := [{ key := 5, id := 3, msgs := [], granted := 0, owned := false }],
                 next_id := 4, msgmni := 1 } }

/-- A queue with identifier 3 that the caller owns and may read and write; it
holds two messages. -/
def q_msgs : MsgQueue :=
  { key := 5, id := 3,
    msgs := [{ mtype := 9, mtext := [1, 2, 3, 4] }, { mtype := 1, mtext := [8, 8, 8, 8] }],
    granted := 6, owned := true }

/-- The world `w0` with the queue `q_msgs`. -/
def w_msgs : World :=
  { w0 with ipc := { w0.ipc with queues := [q_msgs], next_id := 4 } }

/-- The queue `q_msgs` as a caller sees it who is neither owner nor creator and
to whom the mode grants write access only. -/
def q_foreign : MsgQueue := { q_msgs with granted := 2, owned := false }

/-- The world `w0` with the queue `q_foreign`. -/
def w_foreign : World :=
  { w0 with ipc := { w0.ipc with queues := [q_foreign], next_id := 4 } }

/-- A session holding queue 3. -/
def s_get : docker_info := { s0 with mqid := 3 }

/-- The configuration `cfg0` with a 16-byte path buffer. -/
def cfg_small : Config := { cfg0 with BASE_KEY_PATHNAME_LEN := 16 }

/-- A session with a 12-character cgroup id and pid 1. -/
def s_long1 : docker_info :=
  { cgroup_id := ['a', 'a', 'a', 'a', 'a', 'a', 'a', 'a', 'a', 'a', 'a', 'a'], pid := 1,
    mqid := -1, others := [] }

/-- A session with the same cgroup id as `s_long1` and pid 2. -/
def s_long2 : docker_info := { s_long1 with pid := 2 }

/-! # Theorems -/

/-! ## Facts about the kernel model -/

theorem free_ipc (w : World) (n : Nat) : (free w n).ipc = w.ipc := rfl

theorem free_fs (w : World) (n : Nat) : (free w n).fs = w.fs := rfl

theorem live_free (w : World) (n : Nat) (id : Int) : live (free w n) id = live w id := rfl

theorem malloc_ipc (w : World) (n : Nat) : (malloc w n).2.ipc = w.ipc := by
  unfold malloc; split <;> rfl

theorem malloc_fs (w : World) (n : Nat) : (malloc w n).2.fs = w.fs := by
  unfold malloc; split <;> rfl

theorem malloc_trace (w : World) (n : Nat) : (malloc w n).2.trace = w.trace ++ [Call.malloc n] := by
  unfold malloc; split <;> rfl

theorem open_ipc (w : World) (p : List Char) (m : Nat) : (open_ w p m).2.ipc = w.ipc := by
  unfold open_; split
  · rfl
  · split <;> rfl

theorem open_trace (w : World) (p : List Char) (m : Nat) :
    (open_ w p m).2.trace = w.trace ++ [Call.open_ p] := by
  unfold open_; split
  · rfl
  · split <;> rfl

theorem ftok_ipc (w : World) (p : List Char) (j : Nat) : (ftok w p j).2.ipc = w.ipc := by
  unfold ftok; split <;> rfl

theorem ftok_fs (w : World) (p : List Char) (j : Nat) : (ftok w p j).2.fs = w.fs := by
  unfold ftok; split <;> rfl

theorem ftok_trace (w : World) (p : List Char) (j : Nat) :
    (ftok w p j).2.trace = w.trace ++ [Call.ftok p j] := by
  unfold ftok; split <;> rfl

/-- With a 7-bit `PROJECT_ID` the key of an existing file is non-negative, so
the test `0 > ftok(...)` of the code fails exactly when `stat` fails. -/
theorem ftok_nonneg_iff (w : World) (p : List Char) (j : Nat) (hj : j % 256 < 128) :
    0 ≤ (ftok w p j).1 ↔ (stat w.fs p).isSome = true := by
  unfold ftok
  split
  · rename_i h; simp [h]
  · rename_i f h
    simp only [h, Option.isSome_some, iff_true, to_int32]
    have h1 : f.ino % 65536 < 65536 := Nat.mod_lt _ (by decide)
    have h2 : f.dev % 256 < 256 := Nat.mod_lt _ (by decide)
    split <;> omega

theorem mq_key_steps_ipc (cfg : Config) (info : docker_info) (w : World) :
    (mq_key_steps cfg info w).2.2.ipc = w.ipc := by
  simp [mq_key_steps, ftok_ipc, close, open_ipc]

theorem derived_ipc (cfg : Config) (info : docker_info) (w : World) :
    (derived cfg info w).2.2.ipc = w.ipc := by
  simp [derived, mq_key_steps_ipc, malloc_ipc]

theorem msgget_trace (w : World) (k : Int) (f : Nat) :
    (msgget w k f).2.trace = w.trace ++ [Call.msgget k f] := by
  unfold msgget
  split
  · split
    · rfl
    · split <;> rfl
  · split
    · rfl
    · split <;> rfl

/-- A successful `msgget` returns the identifier of a queue that exists afterwards. -/
theorem msgget_live (w : World) (k : Int) (f : Nat) (h : 0 ≤ (msgget w k f).1) :
    live (msgget w k f).2 (msgget w k f).1 = true := by
  unfold msgget at h ⊢
  split
  · rename_i q hq
    have hmem : q ∈ w.ipc.queues := by
      unfold find_key at hq
      split at hq
      · simp at hq
      · exact List.mem_of_find?_eq_some hq
    split
    · rename_i hc; simp [hq, hc] at h
    · split
      · rename_i hc hp; simp [hq, hc, hp] at h
      · simp only [live, List.any_eq_true]
        exact ⟨q, hmem, by simp⟩
  · rename_i hq
    split
    · rename_i hc; simp [hq, hc] at h
    · split
      · rename_i hc hl; simp [hq, hc, hl] at h
      · simp [live]

/-- A failed `msgget` leaves the queues as they were. -/
theorem msgget_fail_ipc (w : World) (k : Int) (f : Nat) (h : (msgget w k f).1 < 0) :
    (msgget w k f).2.ipc = w.ipc := by
  unfold msgget at h ⊢
  split
  · split
    · rfl
    · split <;> rfl
  · rename_i hq
    split
    · rfl
    · split
      · rfl
      · rename_i hc hl
        simp [hq, hc, hl] at h
        omega

/-! ## `docker_mq_init` -/

/-- The result of `__docker_mq_init` when all three steps succeed. -/
theorem mq_init_ok (cfg : Config) (info : docker_info) (w : World)
    (ha : alloc_ok cfg w = true) (hk : key_ok cfg info w = true)
    (hq : queue_ok cfg info w = true) :
    __docker_mq_init cfg info w =
      ((attached cfg info w).1, free (attached cfg info w).2 cfg.BASE_KEY_PATHNAME_LEN) := by
  simp only [alloc_ok] at ha
  simp only [key_ok, derived, decide_eq_true_eq] at hk
  simp only [queue_ok, attached, derived, decide_eq_true_eq] at hq
  simp only [__docker_mq_init, attached, derived, ha, Bool.true_eq_false, if_false,
    not_lt.mpr hk, not_lt.mpr hq]

/-- The result of `__docker_mq_init` when the allocation fails. -/
theorem mq_init_nomem (cfg : Config) (info : docker_info) (w : World)
    (ha : alloc_ok cfg w = false) :
    __docker_mq_init cfg info w = (-ENOMEM, (malloc w cfg.BASE_KEY_PATHNAME_LEN).2) := by
  simp only [alloc_ok] at ha
  simp [__docker_mq_init, ha, mq_init_exception]

/-- The result of `__docker_mq_init` when `ftok` fails. -/
theorem mq_init_nokey (cfg : Config) (info : docker_info) (w : World)
    (ha : alloc_ok cfg w = true) (hk : key_ok cfg info w = false) :
    __docker_mq_init cfg info w =
      (-ENOKEY, free (derived cfg info w).2.2 cfg.BASE_KEY_PATHNAME_LEN) := by
  simp only [alloc_ok] at ha
  simp only [key_ok, derived, decide_eq_false_iff_not, not_le] at hk
  simp [__docker_mq_init, ha, hk, mq_init_exception, derived]

/-- The result of `__docker_mq_init` when `msgget` fails. -/
theorem mq_init_noqueue (cfg : Config) (info : docker_info) (w : World)
    (ha : alloc_ok cfg w = true) (hk : key_ok cfg info w = true)
    (hq : queue_ok cfg info w = false) :
    __docker_mq_init cfg info w =
      (-EINVAL, free (attached cfg info w).2 cfg.BASE_KEY_PATHNAME_LEN) := by
  simp only [alloc_ok] at ha
  simp only [key_ok, derived, decide_eq_true_eq] at hk
  simp only [queue_ok, attached, derived, decide_eq_false_iff_not, not_le] at hq
  simp only [__docker_mq_init, attached, derived, ha, Bool.true_eq_false, if_false,
    not_lt.mpr hk, hq, if_true, mq_init_exception, not_le.mpr hq]

/-- The return value of `docker_mq_init` when all three steps succeed. -/
theorem docker_mq_init_ok_out (cfg : Config) (info : docker_info) (w : World)
    (hpid : info.pid ≠ 0) (ha : alloc_ok cfg w = true) (hk : key_ok cfg info w = true)
    (hq : queue_ok cfg info w = true) :
    (docker_mq_init cfg info w).out = Outcome.ret 0 := by
  have hq0 : 0 ≤ (attached cfg info w).1 := by simpa [queue_ok] using hq
  simp only [docker_mq_init, hpid, if_false, mq_init_ok cfg info w ha hk hq, not_lt.mpr hq0]

/-- C1: for a session with `pid != 0`, in every world where the allocation, the
key derivation (`ftok`) and the `msgget` all succeed, `docker_mq_init` returns 0,
changes the session only by storing into `mqid` the identifier `msgget` returned
for the derived key, that identifier is non-negative, and it names a queue that
is live in the world after the call. -/
theorem docker_mq_init_success (cfg : Config) (info : docker_info) (w : World)
    (hpid : info.pid ≠ 0) (ha : alloc_ok cfg w = true) (hk : key_ok cfg info w = true)
    (hq : queue_ok cfg info w = true) :
    (docker_mq_init cfg info w).out = Outcome.ret 0 ∧
    (docker_mq_init cfg info w).info = { info with mqid := (attached cfg info w).1 } ∧
    0 ≤ (docker_mq_init cfg info w).info.mqid ∧
    live (docker_mq_init cfg info w).world (docker_mq_init cfg info w).info.mqid = true := by
  have hq0 : 0 ≤ (attached cfg info w).1 := by simpa [queue_ok] using hq
  have hlive : live (attached cfg info w).2 (attached cfg info w).1 = true :=
    msgget_live _ _ _ hq0
  simp only [docker_mq_init, hpid, if_false, mq_init_ok cfg info w ha hk hq, not_lt.mpr hq0,
    live_free]
  exact ⟨trivial, trivial, hq0, hlive⟩

/-- Witness of C1: a fresh session on an empty kernel with a writable `/tmp`. -/
theorem docker_mq_init_success_witness :
    s0.pid ≠ 0 ∧ alloc_ok cfg0 w0 = true ∧ key_ok cfg0 s0 w0 = true ∧
    queue_ok cfg0 s0 w0 = true ∧
    (docker_mq_init cfg0 s0 w0).out = Outcome.ret 0 ∧
    (docker_mq_init cfg0 s0 w0).info = { s0 with mqid := (attached cfg0 s0 w0).1 } ∧
    0 ≤ (docker_mq_init cfg0 s0 w0).info.mqid ∧
    live (docker_mq_init cfg0 s0 w0).world (docker_mq_init cfg0 s0 w0).info.mqid = true :=
  ⟨by decide, by decide, by decide, by decide,
   docker_mq_init_success cfg0 s0 w0 (by decide) (by decide) (by decide) (by decide)⟩

/-- C2: for a session with `pid != 0`, whenever one of the three steps of
`docker_mq_init` fails (allocation, `ftok` or `msgget`), the call returns a
strictly negative value and the session is left exactly as it was; so an `mqid`
that was `-1` is still `-1`. -/
theorem docker_mq_init_error_keeps_session (cfg : Config) (info : docker_info) (w : World)
    (hpid : info.pid ≠ 0)
    (hfail : (alloc_ok cfg w && key_ok cfg info w && queue_ok cfg info w) = false) :
    (∃ v : Int, v < 0 ∧ (docker_mq_init cfg info w).out = Outcome.ret v) ∧
    (docker_mq_init cfg info w).info = info ∧
    (info.mqid = -1 → (docker_mq_init cfg info w).info.mqid = -1) := by
  have key : (∃ v : Int, v < 0 ∧ (docker_mq_init cfg info w).out = Outcome.ret v) ∧
      (docker_mq_init cfg info w).info = info := by
    cases ha : alloc_ok cfg w with
    | false =>
      simp only [docker_mq_init, hpid, if_false, mq_init_nomem cfg info w ha]
      simp [ENOMEM]
    | true =>
      cases hk : key_ok cfg info w with
      | false =>
        simp only [docker_mq_init, hpid, if_false, mq_init_nokey cfg info w ha hk]
        simp [ENOKEY]
      | true =>
        cases hq : queue_ok cfg info w with
        | false =>
          simp only [docker_mq_init, hpid, if_false, mq_init_noqueue cfg info w ha hk hq]
          simp [EINVAL]
        | true => simp [ha, hk, hq] at hfail
  exact ⟨key.1, key.2, fun h => by rw [key.2]; exact h⟩

/-- Witness of C2: the queue limit is reached, so `msgget` fails. -/
theorem docker_mq_init_error_keeps_session_witness :
    s0.pid ≠ 0 ∧ (alloc_ok cfg0 w_full && key_ok cfg0 s0 w_full && queue_ok cfg0 s0 w_full) = false ∧
    (∃ v : Int, v < 0 ∧ (docker_mq_init cfg0 s0 w_full).out = Outcome.ret v) ∧
    (docker_mq_init cfg0 s0 w_full).info = s0 ∧
    (s0.mqid = -1 → (docker_mq_init cfg0 s0 w_full).info.mqid = -1) :=
  ⟨by decide, by decide, docker_mq_init_error_keeps_session cfg0 s0 w_full (by decide) (by decide)⟩

/-- C5: the result of `docker_mq_init` is decided by the first failing step.
If the allocation fails the result is `-ENOMEM`, the filesystem is untouched and
the only call made is the `malloc`. Otherwise, if `ftok` fails the result is
`-ENOKEY` and the calls made are `malloc`, `open`, `close`, `ftok`, `free`: no
`msgget`. Otherwise, if `msgget` fails the result is `-EINVAL`. The three results
are pairwise distinct, and when all three steps succeed the result is none of them. -/
theorem docker_mq_init_first_failure (cfg : Config) (info : docker_info) (w : World)
    (hpid : info.pid ≠ 0) :
    (alloc_ok cfg w = false →
      (docker_mq_init cfg info w).out = Outcome.ret (-ENOMEM) ∧
      (docker_mq_init cfg info w).world.fs = w.fs ∧
      (docker_mq_init cfg info w).world.trace =
        w.trace ++ [Call.malloc cfg.BASE_KEY_PATHNAME_LEN]) ∧
    (alloc_ok cfg w = true → key_ok cfg info w = false →
      (docker_mq_init cfg info w).out = Outcome.ret (-ENOKEY) ∧
      (docker_mq_init cfg info w).world.trace =
        w.trace ++ [Call.malloc cfg.BASE_KEY_PATHNAME_LEN,
          Call.open_ (derived cfg info w).1,
          Call.close (open_ (malloc w cfg.BASE_KEY_PATHNAME_LEN).2 (derived cfg info w).1 0).1,
          Call.ftok (derived cfg info w).1 cfg.PROJECT_ID,
          Call.free]) ∧
    (alloc_ok cfg w = true → key_ok cfg info w = true → queue_ok cfg info w = false →
      (docker_mq_init cfg info w).out = Outcome.ret (-EINVAL)) ∧
    (-ENOMEM ≠ -ENOKEY ∧ -ENOMEM ≠ -EINVAL ∧ -ENOKEY ≠ -EINVAL) ∧
    (alloc_ok cfg w = true → key_ok cfg info w = true → queue_ok cfg info w = true →
      (docker_mq_init cfg info w).out ≠ Outcome.ret (-ENOMEM) ∧
      (docker_mq_init cfg info w).out ≠ Outcome.ret (-ENOKEY) ∧
      (docker_mq_init cfg info w).out ≠ Outcome.ret (-EINVAL)) := by
  refine ⟨?_, ?_, ?_, ?_, ?_⟩
  · intro ha
    simp only [docker_mq_init, hpid, if_false, mq_init_nomem cfg info w ha]
    simp [ENOMEM, malloc_fs, malloc_trace]
  · intro ha hk
    simp only [docker_mq_init, hpid, if_false, mq_init_nokey cfg info w ha hk]
    simp [ENOKEY, free, derived, mq_key_steps, ftok_trace, close, open_trace, malloc_trace]
  · intro ha hk hq
    simp only [docker_mq_init, hpid, if_false, mq_init_noqueue cfg info w ha hk hq]
    simp [EINVAL]
  · decide
  · intro ha hk hq
    rw [docker_mq_init_ok_out cfg info w hpid ha hk hq]
    decide

/-- Witness of C5: the session `s0` on a kernel without heap, on a read-only
filesystem, and on a kernel whose queue limit is reached. -/
theorem docker_mq_init_first_failure_witness :
    s0.pid ≠ 0 ∧
    (alloc_ok cfg0 w_noheap = false ∧
      (docker_mq_init cfg0 s0 w_noheap).out = Outcome.ret (-ENOMEM) ∧
      (docker_mq_init cfg0 s0 w_noheap).world.fs = w_noheap.fs ∧
      (docker_mq_init cfg0 s0 w_noheap).world.trace = [Call.malloc 64]) ∧
    (alloc_ok cfg0 w_rofs = true ∧ key_ok cfg0 s0 w_rofs = false ∧
      (docker_mq_init cfg0 s0 w_rofs).out = Outcome.ret (-ENOKEY)) ∧
    (alloc_ok cfg0 w_full = true ∧ key_ok cfg0 s0 w_full = true ∧
      queue_ok cfg0 s0 w_full = false ∧
      (docker_mq_init cfg0 s0 w_full).out = Outcome.ret (-EINVAL)) :=
  ⟨by decide,
   ⟨by decide, (docker_mq_init_first_failure cfg0 s0 w_noheap (by decide)).1 (by decide)⟩,
   ⟨by decide, by decide,
    ((docker_mq_init_first_failure cfg0 s0 w_rofs (by decide)).2.1 (by decide) (by decide)).1⟩,
   ⟨by decide, by decide, by decide,
    (docker_mq_init_first_failure cfg0 s0 w_full (by decide)).2.2.1 (by decide) (by decide)
      (by decide)⟩⟩

/-- The two ways `docker_mq_init` can end: success, with the identifier of a
live queue stored in the session, or anything else, with session and queues
left as they were. -/
theorem docker_mq_init_cases (cfg : Config) (info : docker_info) (w : World) :
    ((docker_mq_init cfg info w).out = Outcome.ret 0 ∧
      (docker_mq_init cfg info w).info = { info with mqid := (attached cfg info w).1 } ∧
      (docker_mq_init cfg info w).world.ipc = (attached cfg info w).2.ipc ∧
      0 ≤ (attached cfg info w).1) ∨
    ((docker_mq_init cfg info w).out ≠ Outcome.ret 0 ∧
      (docker_mq_init cfg info w).info = info ∧
      (docker_mq_init cfg info w).world.ipc = w.ipc) := by
  by_cases hpid : info.pid = 0
  · right; simp [docker_mq_init, hpid]
  · cases ha : alloc_ok cfg w with
    | false =>
      right
      simp only [docker_mq_init, hpid, if_false, mq_init_nomem cfg info w ha]
      simp [ENOMEM, malloc_ipc]
    | true =>
      cases hk : key_ok cfg info w with
      | false =>
        right
        simp only [docker_mq_init, hpid, if_false, mq_init_nokey cfg info w ha hk]
        simp [ENOKEY, free_ipc, derived_ipc]
      | true =>
        cases hq : queue_ok cfg info w with
        | false =>
          right
          simp only [docker_mq_init, hpid, if_false, mq_init_noqueue cfg info w ha hk hq]
          have hneg : (attached cfg info w).1 < 0 := by simpa [queue_ok] using hq
          have := msgget_fail_ipc _ _ _ hneg
          simp only [attached] at this ⊢
          simp [EINVAL, free_ipc, this, derived_ipc]
        | true =>
          left
          have hq0 : 0 ≤ (attached cfg info w).1 := by simpa [queue_ok] using hq
          simp only [docker_mq_init, hpid, if_false, mq_init_ok cfg info w ha hk hq,
            not_lt.mpr hq0, free_ipc]
          exact ⟨trivial, trivial, trivial, hq0⟩

/-- C6: whenever `docker_mq_init` does not return success, the kernel's queues
after the call are exactly the queues before it: nothing created or attached is
left behind, whichever step failed. -/
theorem docker_mq_init_no_leak (cfg : Config) (info : docker_info) (w : World)
    (hfail : (docker_mq_init cfg info w).out ≠ Outcome.ret 0) :
    (docker_mq_init cfg info w).world.ipc = w.ipc := by
  rcases docker_mq_init_cases cfg info w with h | h
  · exact absurd h.1 hfail
  · exact h.2.2

/-- Witness of C6: one foreign queue exists and the queue limit is reached. -/
theorem docker_mq_init_no_leak_witness :
    (docker_mq_init cfg0 s0 w_busy).out ≠ Outcome.ret 0 ∧
    (docker_mq_init cfg0 s0 w_busy).world.ipc = w_busy.ipc :=
  ⟨by decide, docker_mq_init_no_leak cfg0 s0 w_busy (by decide)⟩

/-- C10: for a session with `pid == 0`, `docker_mq_init` stops at its assertion:
it does not return (so never returns success), it makes no call at all (the
world, trace included, is as before: no path formatted, no marker file, no key,
no `msgget`) and the session, `mqid` included, is unchanged. -/
theorem docker_mq_init_pid_zero (cfg : Config) (info : docker_info) (w : World)
    (hpid : info.pid = 0) :
    (docker_mq_init cfg info w).out = Outcome.abort ∧
    (docker_mq_init cfg info w).out ≠ Outcome.ret 0 ∧
    (docker_mq_init cfg info w).world = w ∧
    (docker_mq_init cfg info w).info = info := by
  simp [docker_mq_init, hpid]

/-- Witness of C10: the session `s0` with its pid set to 0. -/
theorem docker_mq_init_pid_zero_witness :
    ({ s0 with pid := 0 } : docker_info).pid = 0 ∧
    (docker_mq_init cfg0 { s0 with pid := 0 } w0).out = Outcome.abort ∧
    (docker_mq_init cfg0 { s0 with pid := 0 } w0).out ≠ Outcome.ret 0 ∧
    (docker_mq_init cfg0 { s0 with pid := 0 } w0).world = w0 ∧
    (docker_mq_init cfg0 { s0 with pid := 0 } w0).info = { s0 with pid := 0 } :=
  ⟨rfl, docker_mq_init_pid_zero cfg0 { s0 with pid := 0 } w0 rfl⟩

/-! ## `docker_mq_free` -/

theorem find_id_some (ipc : Ipc) (id : Int) (q : MsgQueue) (h : find_id ipc id = some q) :
    (q.id : Int) = id := by
  have := List.find?_some h
  simpa using this

theorem find_id_none (w : World) (id : Int) (h : find_id w.ipc id = none) :
    live w id = false := by
  unfold find_id at h
  simp only [List.find?_eq_none, decide_eq_true_eq] at h
  simp only [live, List.any_eq_false, decide_eq_true_eq]
  exact h

/-- An accepted `msgctl(IPC_RMID)` removes the queues with that identifier and
no other. -/
theorem msgctl_rmid_ok (w : World) (id : Int) (h : (msgctl_rmid w id).1 = 0) :
    (msgctl_rmid w id).2.ipc.queues =
      w.ipc.queues.filter (fun q => decide ((q.id : Int) ≠ id)) ∧
    live (msgctl_rmid w id).2 id = false := by
  unfold msgctl_rmid at h ⊢
  split
  · rename_i hf; simp [hf] at h
  · rename_i q hf
    split
    · exact ⟨rfl, by simp [live]⟩
    · rename_i hp; simp [hf, hp] at h

/-- A refused `msgctl(IPC_RMID)` leaves the queues as they were. -/
theorem msgctl_rmid_refused (w : World) (id : Int) (h : (msgctl_rmid w id).1 ≠ 0) :
    (msgctl_rmid w id).2.ipc = w.ipc := by
  unfold msgctl_rmid at h ⊢
  split
  · rfl
  · rename_i q hf
    split
    · rename_i hp; simp [hf, hp] at h
    · rfl

/-- The function `msgctl_rmid` returns `0` exactly on a live queue that the
caller owns or may administer. -/
theorem msgctl_rmid_ok_iff (w : World) (id : Int) :
    (msgctl_rmid w id).1 = 0 ↔
      ∃ q, find_id w.ipc id = some q ∧ (q.owned || w.ipc.cap_sys_admin) = true := by
  unfold msgctl_rmid
  split
  · rename_i hf; simp [hf]
  · rename_i q hf
    split
    · rename_i hp
      simp only [hf, Option.some.injEq, exists_eq_left', true_iff]
      exact hp
    · rename_i hp
      simp only [hf, Option.some.injEq, exists_eq_left']
      constructor
      · intro h; omega
      · intro h; exact absurd h hp

theorem msgctl_rmid_trace (w : World) (id : Int) :
    (msgctl_rmid w id).2.trace = w.trace ++ [Call.msgctl_rmid id] := by
  unfold msgctl_rmid
  split
  · rfl
  · split <;> rfl

/-- The world after `docker_mq_free`, by the test it makes. -/
theorem docker_mq_free_world (cfg : Config) (info : docker_info) (flags : Int) (w : World) :
    ((Int.land cfg.DOCKER_IPC_FREE flags ≠ 0 ∧ 0 ≤ info.mqid) →
      (docker_mq_free cfg info flags w).2 = (msgctl_rmid w info.mqid).2) ∧
    (¬ (Int.land cfg.DOCKER_IPC_FREE flags ≠ 0 ∧ 0 ≤ info.mqid) →
      (docker_mq_free cfg info flags w).2 = w) := by
  constructor
  · intro hc
    show (if Int.land cfg.DOCKER_IPC_FREE flags ≠ 0 ∧ 0 ≤ info.mqid
      then (msgctl_rmid w info.mqid).2 else w) = _
    rw [if_pos hc]
  · intro hc
    show (if Int.land cfg.DOCKER_IPC_FREE flags ≠ 0 ∧ 0 ≤ info.mqid
      then (msgctl_rmid w info.mqid).2 else w) = _
    rw [if_neg hc]

/-- C3 as stated fails: the session holds the identifier 3 of a live queue that
belongs to another user, and `docker_mq_free` is called with `DOCKER_IPC_FREE`.
The flag is set and the handle is `>= 0`, the kernel refuses the
`msgctl(IPC_RMID)`, the code ignores that: `mqid` is reset to `-1` while the
queue is still there, messages included. -/
theorem docker_mq_free_keeps_foreign_queue :
    (Int.land cfg0.DOCKER_IPC_FREE 1 ≠ 0 ∧ 0 ≤ s_get.mqid) ∧
    live w_foreign s_get.mqid = true ∧
    (docker_mq_free cfg0 s_get 1 w_foreign).1.mqid = -1 ∧
    (docker_mq_free cfg0 s_get 1 w_foreign).2.trace = [Call.msgctl_rmid 3] ∧
    (docker_mq_free cfg0 s_get 1 w_foreign).2.ipc.queues = [q_foreign] ∧
    live (docker_mq_free cfg0 s_get 1 w_foreign).2 s_get.mqid = true := by
  decide

/-- C3, amended: `docker_mq_free` always leaves the session with `mqid == -1`
and all other fields as they were. When `(flags & DOCKER_IPC_FREE) != 0` and the
prior handle is `>= 0` it makes exactly one call, `msgctl(IPC_RMID)` on the
prior handle, and ignores its result: if the kernel accepts the call (returns
0) no queue has that identifier afterwards and all others are kept, if it
refuses the queues are as before. In every other case it makes no call and the
world is unchanged. A second call with the same flags changes neither the
session nor the world. -/
theorem docker_mq_free_spec (cfg : Config) (info : docker_info) (flags : Int) (w : World) :
    (docker_mq_free cfg info flags w).1 = { info with mqid := -1 } ∧
    ((Int.land cfg.DOCKER_IPC_FREE flags ≠ 0 ∧ 0 ≤ info.mqid) →
      (docker_mq_free cfg info flags w).2 = (msgctl_rmid w info.mqid).2 ∧
      (docker_mq_free cfg info flags w).2.trace = w.trace ++ [Call.msgctl_rmid info.mqid] ∧
      ((msgctl_rmid w info.mqid).1 = 0 →
        (docker_mq_free cfg info flags w).2.ipc.queues =
          w.ipc.queues.filter (fun q => decide ((q.id : Int) ≠ info.mqid)) ∧
        live (docker_mq_free cfg info flags w).2 info.mqid = false) ∧
      ((msgctl_rmid w info.mqid).1 ≠ 0 →
        (docker_mq_free cfg info flags w).2.ipc = w.ipc)) ∧
    (¬ (Int.land cfg.DOCKER_IPC_FREE flags ≠ 0 ∧ 0 ≤ info.mqid) →
      (docker_mq_free cfg info flags w).2 = w) ∧
    docker_mq_free cfg (docker_mq_free cfg info flags w).1 flags (docker_mq_free cfg info flags w).2 =
      docker_mq_free cfg info flags w := by
  refine ⟨rfl, ?_, (docker_mq_free_world cfg info flags w).2, ?_⟩
  · intro hc
    rw [(docker_mq_free_world cfg info flags w).1 hc]
    exact ⟨rfl, msgctl_rmid_trace _ _, msgctl_rmid_ok _ _, msgctl_rmid_refused _ _⟩
  · simp [docker_mq_free]

/-- Witness of C3, amended: the caller owns queue 3, so the removal is accepted. -/
theorem docker_mq_free_spec_witness :
    (Int.land cfg0.DOCKER_IPC_FREE 1 ≠ 0 ∧ 0 ≤ s_get.mqid) ∧
    (msgctl_rmid w_msgs s_get.mqid).1 = 0 ∧
    (docker_mq_free cfg0 s_get 1 w_msgs).1 = { s_get with mqid := -1 } ∧
    (docker_mq_free cfg0 s_get 1 w_msgs).2.ipc.queues =
      w_msgs.ipc.queues.filter (fun q => decide ((q.id : Int) ≠ s_get.mqid)) ∧
    live (docker_mq_free cfg0 s_get 1 w_msgs).2 s_get.mqid = false :=
  have h := docker_mq_free_spec cfg0 s_get 1 w_msgs
  ⟨by decide, by decide, h.1, (h.2.1 (by decide)).2.2.1 (by decide)⟩

/-! ## `docker_mq_get` -/

theorem find_pop_head (id : Int) (qs : List MsgQueue) (q : MsgQueue)
    (h : qs.find? (fun q => decide ((q.id : Int) = id)) = some q) :
    (pop_head id qs).find? (fun q => decide ((q.id : Int) = id)) =
      some { q with msgs := q.msgs.tail } := by
  induction qs with
  | nil => simp at h
  | cons a qs ih =>
    by_cases ha : (a.id : Int) = id
    · simp [List.find?, ha] at h
      subst h
      simp [pop_head, ha, List.find?]
    · simp [List.find?, ha] at h
      simp [pop_head, ha, List.find?, ih h]

theorem find_pop_head_other (id id2 : Int) (qs : List MsgQueue) (hne : id2 ≠ id) :
    (pop_head id qs).find? (fun q => decide ((q.id : Int) = id2)) =
      qs.find? (fun q => decide ((q.id : Int) = id2)) := by
  induction qs with
  | nil => rfl
  | cons a qs ih =>
    by_cases ha : (a.id : Int) = id
    · have ha2 : ¬ (a.id : Int) = id2 := fun h => hne (h.symm.trans ha)
      have e : pop_head id (a :: qs) = { a with msgs := a.msgs.tail } :: qs := by
        simp only [pop_head, if_pos ha]
      rw [e, List.find?_cons_of_neg, List.find?_cons_of_neg]
      · simpa using ha2
      · simpa using ha2
    · have e : pop_head id (a :: qs) = a :: pop_head id qs := by
        simp only [pop_head, if_neg ha]
      rw [e]
      by_cases ha2 : (a.id : Int) = id2
      · rw [List.find?_cons_of_pos, List.find?_cons_of_pos]
        · simpa using ha2
        · simpa using ha2
      · rw [List.find?_cons_of_neg, List.find?_cons_of_neg, ih]
        · simpa using ha2
        · simpa using ha2

/-- What `msgrcv` does on a readable queue whose head message fits. -/
theorem msgrcv_head (w : World) (id : Int) (rmsg : realtime_msg) (sz : Nat) (q : MsgQueue)
    (m : Message) (rest : List Message)
    (hq : find_id w.ipc id = some q) (hm : q.msgs = m :: rest) (hlen : m.mtext.length ≤ sz)
    (hp : ipcperms w.ipc q S_IRUGO = true) :
    msgrcv w id rmsg sz =
      (some (m.mtext.length : Int),
       { mtype := m.mtype, log := m.mtext ++ rmsg.log.drop m.mtext.length },
       { w with
           ipc := { w.ipc with queues := pop_head id w.ipc.queues },
           trace := w.trace ++ [Call.msgrcv id sz] }) := by
  simp [msgrcv, hq, hm, hp, Nat.not_lt.mpr hlen]

/-- What `msgrcv` does on a queue the caller may not read. -/
theorem msgrcv_refused (w : World) (id : Int) (rmsg : realtime_msg) (sz : Nat) (q : MsgQueue)
    (hq : find_id w.ipc id = some q) (hp : ipcperms w.ipc q S_IRUGO = false) :
    msgrcv w id rmsg sz =
      (some (-1), rmsg, { w with trace := w.trace ++ [Call.msgrcv id sz] }) := by
  simp [msgrcv, hq, hp]

/-- On a live queue whose head message fits, `msgrcv` succeeds exactly when the
caller may read the queue. -/
theorem rcv_ok_iff (cfg : Config) (info : docker_info) (rmsg : realtime_msg) (w : World)
    (q : MsgQueue) (m : Message) (rest : List Message)
    (hq : find_id w.ipc info.mqid = some q) (hm : q.msgs = m :: rest)
    (hlen : m.mtext.length = cfg.REALTIME_LOG_SIZE) :
    rcv_ok cfg info rmsg w = true ↔ ipcperms w.ipc q S_IRUGO = true := by
  cases hp : ipcperms w.ipc q S_IRUGO with
  | false => simp [rcv_ok, msgrcv_refused w _ rmsg _ q hq hp]
  | true => simp [rcv_ok, msgrcv_head w _ rmsg _ q m rest hq hm (le_of_eq hlen) hp]

/-- C4 as stated fails: the session's `mqid` names a live queue whose head
message has a payload of exactly `sizeof(struct realtime_log)` bytes, but the
queue's mode gives the caller no read access. The kernel refuses the `msgrcv`,
`docker_mq_get` returns `-EFAULT`, and buffer and queue are as before. -/
theorem docker_mq_get_unreadable :
    find_id w_foreign.ipc s_get.mqid = some q_foreign ∧
    q_foreign.msgs =
      { mtype := 9, mtext := [1, 2, 3, 4] } :: [{ mtype := 1, mtext := [8, 8, 8, 8] }] ∧
    ([1, 2, 3, 4] : List Nat).length = cfg0.REALTIME_LOG_SIZE ∧
    (docker_mq_get cfg0 s_get [0, 0, 0, 0] { mtype := 0, log := [5, 5, 5, 5] } w_foreign).out =
      Outcome.ret (-EFAULT) ∧
    (docker_mq_get cfg0 s_get [0, 0, 0, 0] { mtype := 0, log := [5, 5, 5, 5] } w_foreign).out ≠
      Outcome.ret 0 ∧
    (docker_mq_get cfg0 s_get [0, 0, 0, 0] { mtype := 0, log := [5, 5, 5, 5] }
      w_foreign).buffer = [0, 0, 0, 0] ∧
    (docker_mq_get cfg0 s_get [0, 0, 0, 0] { mtype := 0, log := [5, 5, 5, 5] }
      w_foreign).world.ipc = w_foreign.ipc := by
  decide

/-- C4, amended: when the session's `mqid` names a live queue `q` whose head
message `m` has a payload of exactly `sizeof(struct realtime_log)` bytes (any
type discriminant) and the kernel does not refuse the `msgrcv` (it returns a
non-negative length), `docker_mq_get` returns 0, the first
`sizeof(struct realtime_log)` bytes of the caller's buffer are exactly the
payload of `m` (the discriminant is not copied, the rest of the buffer is
untouched), the queue is the old queue without its head, every other queue is
unchanged, and so is the session. -/
theorem docker_mq_get_head (cfg : Config) (info : docker_info) (buffer : List Nat)
    (rmsg : realtime_msg) (w : World) (q : MsgQueue) (m : Message) (rest : List Message)
    (hq : find_id w.ipc info.mqid = some q) (hm : q.msgs = m :: rest)
    (hlen : m.mtext.length = cfg.REALTIME_LOG_SIZE)
    (hok : rcv_ok cfg info rmsg w = true) :
    (docker_mq_get cfg info buffer rmsg w).out = Outcome.ret 0 ∧
    (docker_mq_get cfg info buffer rmsg w).buffer =
      m.mtext ++ buffer.drop cfg.REALTIME_LOG_SIZE ∧
    (docker_mq_get cfg info buffer rmsg w).buffer.take cfg.REALTIME_LOG_SIZE = m.mtext ∧
    find_id (docker_mq_get cfg info buffer rmsg w).world.ipc info.mqid =
      some { q with msgs := rest } ∧
    (∀ id : Int, id ≠ info.mqid →
      find_id (docker_mq_get cfg info buffer rmsg w).world.ipc id = find_id w.ipc id) ∧
    (docker_mq_get cfg info buffer rmsg w).info = info := by
  have hid : (q.id : Int) = info.mqid := find_id_some _ _ _ hq
  have hne : info.mqid ≠ -1 := by omega
  have hp : ipcperms w.ipc q S_IRUGO = true :=
    (rcv_ok_iff cfg info rmsg w q m rest hq hm hlen).mp hok
  have hrcv := msgrcv_head w info.mqid rmsg cfg.REALTIME_LOG_SIZE q m rest hq hm
    (le_of_eq hlen) hp
  have hpop := find_pop_head info.mqid w.ipc.queues q hq
  simp only [hm, List.tail_cons] at hpop
  simp only [docker_mq_get, hne, if_false, hrcv]
  have hnn : ¬ ((m.mtext.length : Int) < 0) := by omega
  simp only [hnn, if_false, memcpy]
  refine ⟨trivial, ?_, ?_, hpop, ?_, trivial⟩
  · rw [← hlen]; simp
  · rw [← hlen]; simp
  · intro id hid2
    exact find_pop_head_other info.mqid id w.ipc.queues hid2

/-- Witness of C4, amended: the caller may read queue 3; the head message has
type 9 and payload `[1, 2, 3, 4]`; the local `rmsg` starts as garbage and the
buffer as zeroes. -/
theorem docker_mq_get_head_witness :
    find_id w_msgs.ipc s_get.mqid = some q_msgs ∧
    q_msgs.msgs = { mtype := 9, mtext := [1, 2, 3, 4] } :: [{ mtype := 1, mtext := [8, 8, 8, 8] }] ∧
    ([1, 2, 3, 4] : List Nat).length = cfg0.REALTIME_LOG_SIZE ∧
    rcv_ok cfg0 s_get { mtype := 0, log := [5, 5, 5, 5] } w_msgs = true ∧
    (docker_mq_get cfg0 s_get [0, 0, 0, 0] { mtype := 0, log := [5, 5, 5, 5] } w_msgs).out =
      Outcome.ret 0 ∧
    (docker_mq_get cfg0 s_get [0, 0, 0, 0] { mtype := 0, log := [5, 5, 5, 5] } w_msgs).buffer =
      [1, 2, 3, 4] ∧
    find_id (docker_mq_get cfg0 s_get [0, 0, 0, 0] { mtype := 0, log := [5, 5, 5, 5] }
      w_msgs).world.ipc s_get.mqid =
      some { q_msgs with msgs := [{ mtype := 1, mtext := [8, 8, 8, 8] }] } :=
  have h := docker_mq_get_head cfg0 s_get [0, 0, 0, 0] { mtype := 0, log := [5, 5, 5, 5] } w_msgs
    q_msgs { mtype := 9, mtext := [1, 2, 3, 4] } [{ mtype := 1, mtext := [8, 8, 8, 8] }]
    (by decide) rfl rfl (by decide)
  ⟨by decide, rfl, rfl, by decide, h.1, h.2.1, h.2.2.2.1⟩

/-! ## The marker path and the key -/

theorem digitChar_isDigit (d : Nat) (h : d < 10) : (Nat.digitChar d).isDigit = true := by
  interval_cases d <;> decide

theorem digitChar_val (d : Nat) (h : d < 10) : (Nat.digitChar d).toNat - 48 = d := by
  interval_cases d <;> decide

theorem dec_digits_isDigit (fuel n : Nat) : ∀ c ∈ dec_digits fuel n, c.isDigit = true := by
  induction fuel generalizing n with
  | zero => intro c hc; simp [dec_digits] at hc
  | succ f ih =>
    intro c hc
    unfold dec_digits at hc
    split at hc
    · rename_i hlt
      simp only [List.mem_singleton] at hc
      rw [hc]; exact digitChar_isDigit n hlt
    · rcases List.mem_append.mp hc with h | h
      · exact ih _ c h
      · simp only [List.mem_singleton] at h
        rw [h]; exact digitChar_isDigit _ (Nat.mod_lt _ (by decide))

/-- Reading back the digits printed for `n` gives `n`. -/
theorem dec_val_dec_digits (fuel n : Nat) (h : n < fuel) : dec_val (dec_digits fuel n) = n := by
  induction fuel generalizing n with
  | zero => omega
  | succ f ih =>
    unfold dec_digits
    split
    · rename_i hlt
      simp [dec_val, digitChar_val n hlt]
    · rename_i hge
      have hf : n / 10 < f := by omega
      have := ih (n / 10) hf
      simp only [dec_val, List.foldl_append, List.foldl_cons, List.foldl_nil] at this ⊢
      rw [this, digitChar_val _ (Nat.mod_lt _ (by decide))]
      omega

theorem fmt_d_ne_underscore (n : Int) : ∀ c ∈ fmt_d n, c ≠ '_' := by
  intro c hc
  unfold fmt_d at hc
  split at hc
  · rcases List.mem_cons.mp hc with h | h
    · rw [h]; decide
    · intro e; have := dec_digits_isDigit _ _ c h; rw [e] at this; exact absurd this (by decide)
  · intro e; have := dec_digits_isDigit _ _ c hc; rw [e] at this; exact absurd this (by decide)

/-- The conversion `%d` prints different integers differently. -/
theorem fmt_d_injective (n m : Int) (h : fmt_d n = fmt_d m) : n = m := by
  unfold fmt_d at h
  have key : ∀ a b : Nat, dec_digits (a + 1) a = dec_digits (b + 1) b → a = b := by
    intro a b e
    have := congrArg dec_val e
    rwa [dec_val_dec_digits _ _ (Nat.lt_succ_self a),
      dec_val_dec_digits _ _ (Nat.lt_succ_self b)] at this
  have nodash : ∀ a : Nat, ∀ l : List Char, '-' :: l ≠ dec_digits (a + 1) a := by
    intro a l e
    have := dec_digits_isDigit (a + 1) a '-' (by rw [← e]; simp)
    exact absurd this (by decide)
  split at h <;> split at h
  · have := key _ _ (List.cons.inj h).2
    omega
  · exact absurd h (nodash _ _)
  · exact absurd h.symm (nodash _ _)
  · have := key _ _ h
    omega

/-- Two texts that end in `_` and an underscore-free tail agree part by part. -/
theorem split_last_underscore (xs ys d1 d2 : List Char)
    (h1 : ∀ c ∈ d1, c ≠ '_') (h2 : ∀ c ∈ d2, c ≠ '_')
    (h : xs ++ '_' :: d1 = ys ++ '_' :: d2) : xs = ys ∧ d1 = d2 := by
  induction xs generalizing ys with
  | nil =>
    cases ys with
    | nil => simpa using h
    | cons y ys =>
      simp only [List.nil_append, List.cons_append, List.cons.injEq] at h
      exact absurd rfl (h1 '_' (by rw [h.2]; simp))
  | cons x xs ih =>
    cases ys with
    | nil =>
      simp only [List.nil_append, List.cons_append, List.cons.injEq] at h
      exact absurd rfl (h2 '_' (by rw [← h.2]; simp))
    | cons y ys =>
      simp only [List.cons_append, List.cons.injEq] at h
      obtain ⟨e1, e2⟩ := ih ys h.2
      exact ⟨by rw [h.1, e1], e2⟩

/-- The untruncated text of the path determines the cgroup id and the pid. -/
theorem mq_path_text_injective (suffix c1 c2 : List Char) (p1 p2 : Int)
    (h : mq_path_text c1 suffix p1 = mq_path_text c2 suffix p2) : c1 = c2 ∧ p1 = p2 := by
  unfold mq_path_text at h
  simp only [List.append_assoc, List.singleton_append] at h
  have h' : (['/', 't', 'm', 'p', '/'] ++ c1 ++ suffix) ++ '_' :: fmt_d p1 =
      (['/', 't', 'm', 'p', '/'] ++ c2 ++ suffix) ++ '_' :: fmt_d p2 := by
    simpa [List.append_assoc] using h
  obtain ⟨e1, e2⟩ := split_last_underscore _ _ _ _ (fmt_d_ne_underscore p1)
    (fmt_d_ne_underscore p2) h'
  refine ⟨?_, fmt_d_injective _ _ e2⟩
  have e3 := List.append_cancel_right e1
  exact List.append_cancel_left e3

/-- A text that fits the buffer is stored whole. -/
theorem snprintf_fits (size : Nat) (c suffix : List Char) (p : Int)
    (h : (mq_path_text c suffix p).length < size) :
    snprintf size c suffix p = mq_path_text c suffix p := by
  unfold snprintf
  exact List.take_of_length_le (by omega)

theorem mq_key_steps_path (cfg : Config) (info : docker_info) (w : World) :
    (mq_key_steps cfg info w).1 =
      snprintf cfg.BASE_KEY_PATHNAME_LEN info.cgroup_id cfg.MSGQ_KEY_PATHNAME info.pid := rfl

/-- C7 as stated fails. With a 16-byte buffer the sessions (`aaaaaaaaaaaa`, 1)
and (`aaaaaaaaaaaa`, 2) are valid, differ in their pid, and both get the marker
path `/tmp/aaaaaaaaaa`. The same happens for every value of the absent macros:
two sessions whose cgroup id is longer than the buffer and whose pids are 1 and
2 get the same truncated path. -/
theorem mq_path_not_injective :
    (s_long1.cgroup_id ≠ [] ∧ s_long2.cgroup_id ≠ [] ∧ s_long1.pid ≠ 0 ∧ s_long2.pid ≠ 0 ∧
      (mq_key_steps cfg_small s_long1 w0).1 = (mq_key_steps cfg_small s_long2 w0).1 ∧
      (mq_key_steps cfg_small s_long1 w0).1 =
        ['/', 't', 'm', 'p', '/', 'a', 'a', 'a', 'a', 'a', 'a', 'a', 'a', 'a', 'a'] ∧
      s_long1.pid ≠ s_long2.pid) ∧
    ¬ ∃ cfg : Config, ∀ (a b : docker_info) (w : World),
      a.cgroup_id ≠ [] → b.cgroup_id ≠ [] → a.pid ≠ 0 → b.pid ≠ 0 →
      (mq_key_steps cfg a w).1 = (mq_key_steps cfg b w).1 →
      a.cgroup_id = b.cgroup_id ∧ a.pid = b.pid := by
  refine ⟨by decide, ?_⟩
  rintro ⟨cfg, h⟩
  have hlen : cfg.BASE_KEY_PATHNAME_LEN - 1 ≤
      (['/', 't', 'm', 'p', '/'] ++
        List.replicate (cfg.BASE_KEY_PATHNAME_LEN + 1) 'a').length := by
    simp; omega
  have hp : ∀ p : Int,
      snprintf cfg.BASE_KEY_PATHNAME_LEN (List.replicate (cfg.BASE_KEY_PATHNAME_LEN + 1) 'a')
        cfg.MSGQ_KEY_PATHNAME p =
      (['/', 't', 'm', 'p', '/'] ++ List.replicate (cfg.BASE_KEY_PATHNAME_LEN + 1) 'a').take
        (cfg.BASE_KEY_PATHNAME_LEN - 1) := by
    intro p
    unfold snprintf mq_path_text
    rw [List.append_assoc (['/', 't', 'm', 'p', '/'] ++ _),
      List.append_assoc (['/', 't', 'm', 'p', '/'] ++ _)]
    exact List.take_append_of_le_length hlen
  have := h { cgroup_id := List.replicate (cfg.BASE_KEY_PATHNAME_LEN + 1) 'a', pid := 1,
              mqid := -1, others := [] }
            { cgroup_id := List.replicate (cfg.BASE_KEY_PATHNAME_LEN + 1) 'a', pid := 2,
              mqid := -1, others := [] }
            w0 (by simp [List.replicate_succ]) (by simp [List.replicate_succ]) (by simp)
            (by simp) (by rw [mq_key_steps_path, mq_key_steps_path, hp, hp])
  exact absurd this.2 (by simp)

/-- C7, amended: if the formatted texts of two identities both fit the path
buffer (fewer than `BASE_KEY_PATHNAME_LEN` bytes, so that `snprintf` truncates
neither), and `__docker_mq_init` builds the same marker path for both, then the
cgroup ids are equal and the pids are equal. -/
theorem mq_path_injective_of_fits (cfg : Config) (a b : docker_info) (w w' : World)
    (ha : (mq_path_text a.cgroup_id cfg.MSGQ_KEY_PATHNAME a.pid).length <
      cfg.BASE_KEY_PATHNAME_LEN)
    (hb : (mq_path_text b.cgroup_id cfg.MSGQ_KEY_PATHNAME b.pid).length <
      cfg.BASE_KEY_PATHNAME_LEN)
    (h : (mq_key_steps cfg a w).1 = (mq_key_steps cfg b w').1) :
    a.cgroup_id = b.cgroup_id ∧ a.pid = b.pid := by
  rw [mq_key_steps_path, mq_key_steps_path, snprintf_fits _ _ _ _ ha,
    snprintf_fits _ _ _ _ hb] at h
  exact mq_path_text_injective _ _ _ _ _ h

/-- Witness of C7, amended: the session `s0` against itself. -/
theorem mq_path_injective_of_fits_witness :
    (mq_path_text s0.cgroup_id cfg0.MSGQ_KEY_PATHNAME s0.pid).length <
      cfg0.BASE_KEY_PATHNAME_LEN ∧
    (mq_key_steps cfg0 s0 w0).1 = (mq_key_steps cfg0 s0 w_full).1 ∧
    s0.cgroup_id = s0.cgroup_id ∧ s0.pid = s0.pid :=
  ⟨by decide, by decide,
   mq_path_injective_of_fits cfg0 s0 s0 w0 w_full (by decide) (by decide) (by decide)⟩

/-- Opening the marker a second time leaves the filesystem as the first `open` left it. -/
theorem open_fs_idem (w w' : World) (p : List Char) (m : Nat)
    (h : w'.fs = (open_ w p m).2.fs) : (open_ w' p m).2.fs = w'.fs := by
  unfold open_ at h ⊢
  split at h
  · rename_i f hf
    simp only at h
    rw [h, hf]
  · rename_i hf
    split at h
    · simp only at h
      have hs : stat w'.fs p =
          some { path := p, dev := w.fs.new_dev, ino := w.fs.next_ino, mode := m } := by
        rw [h]
        unfold stat at hf ⊢
        simp [List.find?_append, hf]
      rw [hs]
    · rename_i hc
      simp only at h
      have hs : stat w'.fs p = none := by rw [h]; exact hf
      have hc' : w'.fs.can_create p = false := by rw [h]; simpa using hc
      rw [hs]
      simp [hc']

theorem ftok_val_congr (w w' : World) (p : List Char) (j : Nat) (h : w'.fs = w.fs) :
    (ftok w' p j).1 = (ftok w p j).1 := by
  unfold ftok
  rw [h]
  split <;> rfl

theorem mq_key_steps_fs (cfg : Config) (info : docker_info) (w : World) :
    (mq_key_steps cfg info w).2.2.fs = (open_ w (mq_key_steps cfg info w).1 0).2.fs := by
  simp [mq_key_steps, ftok_fs, close]

/-- C8: for every session and every world, running the key-derivation steps of
`__docker_mq_init` (format the path, create the marker file if absent, `ftok`
with `PROJECT_ID`) a second time, in the world the first run left, gives the
same path and the same key as the first run, and leaves the filesystem exactly
as the first run left it. -/
theorem mq_key_steps_twice (cfg : Config) (info : docker_info) (w : World) :
    (mq_key_steps cfg info (mq_key_steps cfg info w).2.2).1 = (mq_key_steps cfg info w).1 ∧
    (mq_key_steps cfg info (mq_key_steps cfg info w).2.2).2.1 = (mq_key_steps cfg info w).2.1 ∧
    (mq_key_steps cfg info (mq_key_steps cfg info w).2.2).2.2.fs =
      (mq_key_steps cfg info w).2.2.fs := by
  have hfs : (mq_key_steps cfg info (mq_key_steps cfg info w).2.2).2.2.fs =
      (mq_key_steps cfg info w).2.2.fs := by
    rw [mq_key_steps_fs cfg info (mq_key_steps cfg info w).2.2]
    exact open_fs_idem w _ _ 0 (mq_key_steps_fs cfg info w)
  refine ⟨rfl, ?_, hfs⟩
  have h1 : (mq_key_steps cfg info w).2.1 =
      (ftok (close (open_ w (mq_key_steps cfg info w).1 0).2
        (open_ w (mq_key_steps cfg info w).1 0).1) (mq_key_steps cfg info w).1 cfg.PROJECT_ID).1 := rfl
  have h2 : (mq_key_steps cfg info (mq_key_steps cfg info w).2.2).2.1 =
      (ftok (close (open_ (mq_key_steps cfg info w).2.2 (mq_key_steps cfg info w).1 0).2
        (open_ (mq_key_steps cfg info w).2.2 (mq_key_steps cfg info w).1 0).1)
        (mq_key_steps cfg info w).1 cfg.PROJECT_ID).1 := rfl
  rw [h1, h2]
  apply ftok_val_congr
  show (open_ (mq_key_steps cfg info w).2.2 (mq_key_steps cfg info w).1 0).2.fs =
    (open_ w (mq_key_steps cfg info w).1 0).2.fs
  rw [open_fs_idem w _ _ 0 (mq_key_steps_fs cfg info w), mq_key_steps_fs]

/-! ## The handle invariant over several sessions -/

end DockerMq
